import Mathlib

/-!
Shallow embedding of `src/main.py` (`CoinFilter`), a multi-stage token
filtering pipeline.  External HTTP services are modelled as oracles
(functions from request key to response); Python numbers are modelled as
rationals; JSON objects are structures of `Option` fields (a `none` field
models a missing key); Python exceptions that can escape a function are
modelled with `Except PyError`.  The mutable `self.blacklist` is threaded
explicitly through the functions that read or extend it.
-/

namespace TokenFilterBot

/-- The Python exceptions that the modelled code can raise:
`KeyError` from a `d[k]` subscript on a missing key, `ValueError` from
`datetime.strptime` on an unparseable string, `ZeroDivisionError` from
division by zero, and the `Exception` raised by `fetch_pumpfun_coins` on a
non-200 source response. -/
inductive PyError
  | keyError
  | valueError
  | zeroDivisionError
  | fetchException
  deriving DecidableEq, Repr

/-- An HTTP response: `status_code` plus the decoded JSON `body`
(the body is only ever inspected after a 200 check). -/
structure Response (β : Type) where
  status_code : Nat
  body : β
  deriving DecidableEq, Repr

/-- The `pairAge` JSON field of a DexScreener record: absent (subscript
raises `KeyError`), present but rejected by
`datetime.strptime(_, "%Y-%m-%dT%H:%M:%S")` (raises `ValueError`), or
parsed to a timestamp, measured in seconds. -/
inductive DateField
  | missing
  | malformed
  | parsed (t : ℚ)
  deriving DecidableEq, Repr

/-- A coin object from the PumpFun listing (`self.coins_data` elements).
`none` models a missing key. -/
structure Coin where
  id : Option String := none
  symbol : Option String := none
  status : Option String := none
  developer : Option String := none
  deriving DecidableEq, Repr

/-- A `token_data` object decoded from a DexScreener token response. -/
structure TokenData where
  id : Option String := none
  symbol : Option String := none
  contract : Option String := none
  developer : Option String := none
  pairAge : DateField := DateField.missing
  oneHourTxns : Option ℚ := none
  fiveMinTxns : Option ℚ := none
  deriving DecidableEq, Repr

/-- Body of a Rocker Universe volume-oracle response. -/
structure RockerBody where
  isValid : Option Bool := none
  deriving DecidableEq, Repr

/-- Body of a RugCheck anti-rug response. -/
structure RugBody where
  status : Option String := none
  isBundledSupply : Option Bool := none
  deriving DecidableEq, Repr

/-- Body of a TweetScout sentiment response. -/
structure ScoreBody where
  score : Option ℚ := none
  deriving DecidableEq, Repr

/-- Body of a GMGN.ai holder-distribution response (`holder_data`). -/
structure HolderData where
  totalSupply : Option ℚ := none
  holders : Option (List ℚ) := none
  deriving DecidableEq, Repr

/-- `self.blacklist`: two Python lists, appended to by `verify_contract`. -/
structure Blacklist where
  memecoins : List String
  developers : List String
  deriving DecidableEq, Repr

/-- `self.filters`: the numeric thresholds loaded from `config.json`. -/
structure Filters where
  pair_age_hours : ℚ
  min_1h_txns : ℚ
  min_5m_txns : ℚ
  tweetscout_score_threshold : ℚ
  deriving DecidableEq, Repr

/-- The immutable context of a run: the external HTTP collaborators as
oracles keyed by the request datum, together with the configuration
(`self.filters`, `self.use_rocker_api`). -/
structure Env where
  /-- Response of `GET self.pumpfun_url`. -/
  pumpfun : Response (List Coin)
  /-- Response of `GET self.dexscreener_url/tokens/{id}`, keyed by id. -/
  dexscreener : String → Response TokenData
  /-- Response of `POST self.rocker_universe_url {tokenId}`, keyed by id. -/
  rocker_universe : String → Response RockerBody
  /-- Response of `POST self.rugcheck_url {tokenAddress}`, keyed by address. -/
  rugcheck : String → Response RugBody
  /-- Response of `GET self.tweetscout_url?symbol=...`, keyed by symbol. -/
  tweetscout : String → Response ScoreBody
  /-- Response of `GET self.gmgn_ai_url/holders/{id}`, keyed by id. -/
  gmgn_ai : String → Response HolderData
  /-- Modelled from the spec: `self.custom_volume_check` is called by
  `verify_volume` when `use_rocker_api` is false, but no such method exists
  in `src/main.py`.  Spec §4.3 describes it as a local heuristic that
  computes a boolean validity signal from fields already present on the
  record, without a network call; it is therefore modelled as an arbitrary
  pure boolean function of the record. -/
  custom_volume_check : TokenData → Bool
  /-- `self.use_rocker_api` from `config.json`. -/
  use_rocker_api : Bool
  /-- `self.filters` from `config.json`. -/
  filters : Filters

/-- `filter_dexscreener_data(self, token_data, developer_address)`
(src/main.py:60-73).  `now` is the value of `datetime.now()` for this call,
in seconds.  The `try` block catches exactly `KeyError` (a missing
`pairAge` key), returning `False`; an unparseable `pairAge` string makes
`strptime` raise `ValueError`, which is not caught.  `timedelta(hours=h)`
is `3600*h` seconds.  Missing `oneHourTxns`/`fiveMinTxns` default to 0 via
`dict.get`. -/
def filter_dexscreener_data (ctx : Env) (now : ℚ) (token_data : TokenData)
    (developer_address : String) (bl : Blacklist) : Except PyError Bool :=
  match token_data.pairAge with
  | DateField.missing => Except.ok false
  | DateField.malformed => Except.error PyError.valueError
  | DateField.parsed t =>
    let pair_age := now - t
    let one_hour_txns := token_data.oneHourTxns.getD 0
    let five_min_txns := token_data.fiveMinTxns.getD 0
    Except.ok (decide (pair_age ≤ 3600 * ctx.filters.pair_age_hours ∧
      one_hour_txns ≥ ctx.filters.min_1h_txns ∧
      five_min_txns ≥ ctx.filters.min_5m_txns ∧
      developer_address ∉ bl.developers))

/-- `verify_volume(self, token_data)` (src/main.py:75-86).  Both branches
first interpolate `token_data['symbol']` into a printed message, raising
`KeyError` when the key is absent; the Rocker branch then subscripts
`token_data['id']`.  A non-200 oracle response yields `False`; a 200
response yields `json().get("isValid", False)`. -/
def verify_volume (ctx : Env) (token_data : TokenData) : Except PyError Bool :=
  if ctx.use_rocker_api then
    match token_data.symbol with
    | none => Except.error PyError.keyError
    | some _ =>
      match token_data.id with
      | none => Except.error PyError.keyError
      | some tid =>
        let response := ctx.rocker_universe tid
        if response.status_code = 200 then
          Except.ok (response.body.isValid.getD false)
        else
          Except.ok false
  else
    match token_data.symbol with
    | none => Except.error PyError.keyError
    | some _ => Except.ok (ctx.custom_volume_check token_data)

/-- `verify_contract(self, token_data)` (src/main.py:88-104).  Subscripts
`token_data['symbol']` (printed message) then `token_data['contract']`
(request payload) before the call; on a 200 response with
`status == "Good"` and `isBundledSupply` truthy it appends the symbol to
`blacklist['memecoins']` and then subscripts `token_data['developer']` to
append it to `blacklist['developers']` — so a missing `developer` key
raises `KeyError` after the symbol was already appended.  Returns the
boolean result together with the (possibly extended) blacklist. -/
def verify_contract (ctx : Env) (token_data : TokenData) (bl : Blacklist) :
    Except PyError Bool × Blacklist :=
  match token_data.symbol with
  | none => (Except.error PyError.keyError, bl)
  | some sym =>
    match token_data.contract with
    | none => (Except.error PyError.keyError, bl)
    | some addr =>
      let response := ctx.rugcheck addr
      if response.status_code = 200 then
        let data := response.body
        if data.status ≠ some "Good" then
          (Except.ok false, bl)
        else if data.isBundledSupply.getD false then
          let bl1 : Blacklist := { bl with memecoins := bl.memecoins ++ [sym] }
          match token_data.developer with
          | none => (Except.error PyError.keyError, bl1)
          | some dev =>
            (Except.ok false, { bl1 with developers := bl1.developers ++ [dev] })
        else
          (Except.ok true, bl)
      else
        (Except.ok false, bl)

/-- `check_social_media(self, token_symbol)` (src/main.py:106-124).
On a 200 response the score is `json().get("score", 0)`; `"Good"` iff it
exceeds `self.filters["tweetscout_score_threshold"]`, else `"Medium"`.
A non-200 response yields `"Unknown"`. -/
def check_social_media (ctx : Env) (token_symbol : String) : String :=
  let response := ctx.tweetscout token_symbol
  if response.status_code = 200 then
    let score := response.body.score.getD 0
    if score > ctx.filters.tweetscout_score_threshold then "Good" else "Medium"
  else "Unknown"

/-- A filtered token as appended by `fetch_dexscreener_tokens`: the
DexScreener `token_data` enriched with `token_data["social_media_status"]`. -/
structure TokenOut where
  data : TokenData
  social_media_status : String
  deriving DecidableEq, Repr

/-- One iteration of the `for coin in migrated_coins` loop body of
`fetch_dexscreener_tokens` (src/main.py:48-56), for one coin at time `now`:
subscripts `coin['id']`; on a non-200 DexScreener response the coin is
silently skipped; otherwise subscripts `coin['developer']`, runs
`filter_dexscreener_data`, then `verify_volume and verify_contract`
(short-circuit: the contract check and its blacklist mutation only run when
the volume check returned `True`), then subscripts `coin['symbol']` and
attaches `check_social_media`.  Returns `some` output if the coin was
appended, `none` if it was dropped, or the escaping exception. -/
def processCoin (ctx : Env) (now : ℚ) (bl : Blacklist) (coin : Coin) :
    Except PyError (Option TokenOut × Blacklist) :=
  match coin.id with
  | none => Except.error PyError.keyError
  | some cid =>
    let response := ctx.dexscreener cid
    if response.status_code = 200 then
      let token_data := response.body
      match coin.developer with
      | none => Except.error PyError.keyError
      | some dev =>
        match filter_dexscreener_data ctx now token_data dev bl with
        | Except.error e => Except.error e
        | Except.ok false => Except.ok (none, bl)
        | Except.ok true =>
          match verify_volume ctx token_data with
          | Except.error e => Except.error e
          | Except.ok false => Except.ok (none, bl)
          | Except.ok true =>
            match verify_contract ctx token_data bl with
            | (Except.error e, _) => Except.error e
            | (Except.ok false, bl1) => Except.ok (none, bl1)
            | (Except.ok true, bl1) =>
              match coin.symbol with
              | none => Except.error PyError.keyError
              | some sym =>
                Except.ok
                  (some ⟨token_data, check_social_media ctx sym⟩, bl1)
    else
      Except.ok (none, bl)

/-- The loop of `fetch_dexscreener_tokens` (src/main.py:45-58), processing
the coins in order from position `idx`.  `nowf k` is the wall-clock value
`datetime.now()` observed while processing the `k`-th candidate (evaluated
once per candidate).  An exception raised for any coin aborts the whole
loop; otherwise the outputs of the surviving coins are collected in order
and the blacklist is threaded through. -/
def fetchDexAux (ctx : Env) (nowf : Nat → ℚ) :
    Nat → Blacklist → List Coin → Except PyError (List TokenOut × Blacklist)
  | _, bl, [] => Except.ok ([], bl)
  | idx, bl, coin :: rest =>
    match processCoin ctx (nowf idx) bl coin with
    | Except.error e => Except.error e
    | Except.ok (o, bl1) =>
      match fetchDexAux ctx nowf (idx + 1) bl1 rest with
      | Except.error e => Except.error e
      | Except.ok (outs, bl2) => Except.ok (o.toList ++ outs, bl2)

/-- `fetch_dexscreener_tokens(self, migrated_coins)` (src/main.py:45-58). -/
def fetch_dexscreener_tokens (ctx : Env) (nowf : Nat → ℚ) (bl : Blacklist)
    (migrated_coins : List Coin) : Except PyError (List TokenOut × Blacklist) :=
  fetchDexAux ctx nowf 0 bl migrated_coins

/-- Per-coin trace of the same loop: like `fetchDexAux` but recording, for
every input coin, `some out` (appended) or `none` (dropped), so that
outputs can be attributed to input positions. -/
def fetchDexTrace (ctx : Env) (nowf : Nat → ℚ) :
    Nat → Blacklist → List Coin →
      Except PyError (List (Option TokenOut) × Blacklist)
  | _, bl, [] => Except.ok ([], bl)
  | idx, bl, coin :: rest =>
    match processCoin ctx (nowf idx) bl coin with
    | Except.error e => Except.error e
    | Except.ok (o, bl1) =>
      match fetchDexTrace ctx nowf (idx + 1) bl1 rest with
      | Except.error e => Except.error e
      | Except.ok (os, bl2) => Except.ok (o :: os, bl2)

/-- `analyze_pumpfun_data(self)` (src/main.py:35-42): the list
comprehension keeping coins with `coin.get("status") == "migrated"` whose
`coin["symbol"]` is not in `blacklist["memecoins"]`.  `coin.get` tolerates
a missing `status`; the `coin["symbol"]` subscript (evaluated only when the
status test passed, by `and` short-circuit) raises `KeyError`, aborting the
whole comprehension. -/
def analyze_pumpfun_data (bl : Blacklist) : List Coin → Except PyError (List Coin)
  | [] => Except.ok []
  | coin :: rest =>
    if coin.status = some "migrated" then
      match coin.symbol with
      | none => Except.error PyError.keyError
      | some sym =>
        if sym ∈ bl.memecoins then
          analyze_pumpfun_data bl rest
        else
          match analyze_pumpfun_data bl rest with
          | Except.error e => Except.error e
          | Except.ok l => Except.ok (coin :: l)
    else
      analyze_pumpfun_data bl rest

/-- `fetch_pumpfun_coins(self)` (src/main.py:25-33): a non-200 response
raises `Exception` (fatal to the run); a 200 response is analyzed by
`analyze_pumpfun_data`. -/
def fetch_pumpfun_coins (ctx : Env) (bl : Blacklist) : Except PyError (List Coin) :=
  if ctx.pumpfun.status_code = 200 then
    analyze_pumpfun_data bl ctx.pumpfun.body
  else
    Except.error PyError.fetchException

/-- `evaluate_holders(self, holder_data)` (src/main.py:139-145).  The `try`
block catches exactly `KeyError` (missing `totalSupply` or `holders` key),
returning `False`.  With both keys present,
`sum(holder_data["holders"][:5]) / total_supply` raises
`ZeroDivisionError` when `total_supply == 0`, which is not caught;
otherwise the result is `ratio < 0.2`. -/
def evaluate_holders (holder_data : HolderData) : Except PyError Bool :=
  match holder_data.totalSupply with
  | none => Except.ok false
  | some total_supply =>
    match holder_data.holders with
    | none => Except.ok false
    | some holders =>
      if total_supply = 0 then
        Except.error PyError.zeroDivisionError
      else
        Except.ok (decide ((holders.take 5).sum / total_supply < (0.2 : ℚ)))

/-- `analyze_gmgn_ai(self, tokens)` (src/main.py:127-137): for each token,
subscripts `token['id']`, fetches the holder distribution, silently skips
the token on a non-200 response, and keeps it iff `evaluate_holders`
returns `True`.  Any exception aborts the loop. -/
def analyze_gmgn_ai (ctx : Env) : List TokenOut → Except PyError (List TokenOut)
  | [] => Except.ok []
  | token :: rest =>
    match token.data.id with
    | none => Except.error PyError.keyError
    | some tid =>
      let response := ctx.gmgn_ai tid
      if response.status_code = 200 then
        match evaluate_holders response.body with
        | Except.error e => Except.error e
        | Except.ok true =>
          match analyze_gmgn_ai ctx rest with
          | Except.error e => Except.error e
          | Except.ok l => Except.ok (token :: l)
        | Except.ok false => analyze_gmgn_ai ctx rest
      else
        analyze_gmgn_ai ctx rest

/-- `run(self)` (src/main.py:148-153): the fixed pipeline
PumpFun fetch → DexScreener filter → GMGN.ai holder filter, threading the
blacklist, starting from the seed blacklist `bl`.  Returns the final token
list together with the final blacklist. -/
def run (ctx : Env) (nowf : Nat → ℚ) (bl : Blacklist) :
    Except PyError (List TokenOut × Blacklist) :=
  match fetch_pumpfun_coins ctx bl with
  | Except.error e => Except.error e
  | Except.ok migrated_coins =>
    match fetch_dexscreener_tokens ctx nowf bl migrated_coins with
    | Except.error e => Except.error e
    | Except.ok (tokens, bl1) =>
      match analyze_gmgn_ai ctx tokens with
      | Except.error e => Except.error e
      | Except.ok analyzed => Except.ok (analyzed, bl1)

end TokenFilterBot

namespace TokenFilterBot

/-! ### Concrete test data

A concrete run used by counterexamples and witnesses: two migrated coins
share the symbol "AAA" but have different developers; RugCheck reports
bundled supply for the first coin's contract only. -/

/-- DexScreener record of the first candidate (developer "d1"). -/
def tdA : TokenData :=
  { id := some "1", symbol := some "AAA", contract := some "k1",
    developer := some "d1", pairAge := DateField.parsed 0,
    oneHourTxns := some 100, fiveMinTxns := some 100 }

/-- DexScreener record of the second candidate (developer "d2", same
symbol "AAA"). -/
def tdB : TokenData :=
  { id := some "2", symbol := some "AAA", contract := some "k2",
    developer := some "d2", pairAge := DateField.parsed 0,
    oneHourTxns := some 100, fiveMinTxns := some 100 }

/-- First PumpFun candidate. -/
def coinA : Coin :=
  { id := some "1", symbol := some "AAA", status := some "migrated",
    developer := some "d1" }

/-- Second PumpFun candidate: same symbol as `coinA`, different developer. -/
def coinB : Coin :=
  { id := some "2", symbol := some "AAA", status := some "migrated",
    developer := some "d2" }

/-- A third candidate sharing `coinA`'s developer "d1". -/
def coinC : Coin :=
  { id := some "3", symbol := some "CCC", status := some "migrated",
    developer := some "d1" }

/-- Concrete filter configuration. -/
def filtersX : Filters :=
  { pair_age_hours := 24, min_1h_txns := 10, min_5m_txns := 5,
    tweetscout_score_threshold := 450 }

/-- Concrete environment: every service is up; RugCheck flags contract
"k1" (candidate `coinA`) as bundled supply and accepts every other
contract. -/
def envX : Env :=
  { pumpfun := ⟨200, [coinA, coinB]⟩,
    dexscreener := fun cid => if cid = "1" then ⟨200, tdA⟩ else ⟨200, tdB⟩,
    rocker_universe := fun _ => ⟨200, ⟨some true⟩⟩,
    rugcheck := fun addr =>
      if addr = "k1" then ⟨200, ⟨some "Good", some true⟩⟩
      else ⟨200, ⟨some "Good", some false⟩⟩,
    tweetscout := fun _ => ⟨200, ⟨some 500⟩⟩,
    gmgn_ai := fun _ => ⟨200, ⟨some 1000, some [100]⟩⟩,
    custom_volume_check := fun _ => true,
    use_rocker_api := true,
    filters := filtersX }

/-- DexScreener record with an unparseable `pairAge` string. -/
def tdBad : TokenData :=
  { id := some "9", symbol := some "BBB", contract := some "k9",
    developer := some "d9", pairAge := DateField.malformed,
    oneHourTxns := some 100, fiveMinTxns := some 100 }

/-- The candidate whose DexScreener record is `tdBad`. -/
def coinBad : Coin :=
  { id := some "9", symbol := some "BBB", status := some "migrated",
    developer := some "d9" }

/-- Like `envX` but DexScreener serves the malformed record `tdBad` for
coin id "9". -/
def envBad : Env :=
  { envX with
    dexscreener := fun cid =>
      if cid = "9" then ⟨200, tdBad⟩
      else if cid = "1" then ⟨200, tdA⟩ else ⟨200, tdB⟩ }

/-- Like `envX` but the TweetScout response is a 200 whose body has no
`score` field. -/
def envNoScore : Env :=
  { envX with tweetscout := fun _ => ⟨200, ⟨none⟩⟩ }

/-- Like `envX` but every DexScreener token request fails with a 503. -/
def envDown : Env :=
  { envX with dexscreener := fun _ => ⟨503, {}⟩ }

/-- A coin whose `status` key is absent (so not "migrated"). -/
def coinNM : Coin :=
  { id := some "7", symbol := some "NMX", status := none,
    developer := some "d7" }

/-! ### Helper lemmas -/

theorem verify_contract_blacklist_grows (ctx : Env) (td : TokenData) (bl : Blacklist) :
    bl.memecoins <+: ((verify_contract ctx td bl).2).memecoins ∧
    bl.developers <+: ((verify_contract ctx td bl).2).developers := by
  rcases hsym : td.symbol with _ | sym
  · simp [verify_contract, hsym]
  rcases hcon : td.contract with _ | addr
  · simp [verify_contract, hsym, hcon]
  by_cases h200 : (ctx.rugcheck addr).status_code = 200
  · by_cases hgood : (ctx.rugcheck addr).body.status = some "Good"
    · by_cases hb : (ctx.rugcheck addr).body.isBundledSupply.getD false = true
      · rcases hdev : td.developer with _ | dev
        · simp [verify_contract, hsym, hcon, h200, hgood, hb, hdev, List.prefix_append]
        · simp [verify_contract, hsym, hcon, h200, hgood, hb, hdev, List.prefix_append]
      · simp [verify_contract, hsym, hcon, h200, hgood, hb]
    · simp [verify_contract, hsym, hcon, h200, hgood]
  · simp [verify_contract, hsym, hcon, h200]

theorem processCoin_blacklist_grows (ctx : Env) (now : ℚ) (bl : Blacklist)
    (coin : Coin) (o : Option TokenOut) (bl1 : Blacklist)
    (h : processCoin ctx now bl coin = Except.ok (o, bl1)) :
    bl.memecoins <+: bl1.memecoins ∧ bl.developers <+: bl1.developers := by
  rcases hid : coin.id with _ | cid
  · simp [processCoin, hid] at h
  by_cases hsc : (ctx.dexscreener cid).status_code = 200
  case neg =>
    simp [processCoin, hid, hsc] at h
    obtain ⟨h1, h2⟩ := h
    subst h2
    simp
  case pos =>
    rcases hdev : coin.developer with _ | dev
    · simp [processCoin, hid, hsc, hdev] at h
    rcases hfil : filter_dexscreener_data ctx now ((ctx.dexscreener cid).body) dev bl with e | b
    · simp [processCoin, hid, hsc, hdev, hfil] at h
    rcases b with _ | _
    · simp [processCoin, hid, hsc, hdev, hfil] at h
      obtain ⟨h1, h2⟩ := h
      subst h2
      simp
    rcases hvol : verify_volume ctx ((ctx.dexscreener cid).body) with e | b
    · simp [processCoin, hid, hsc, hdev, hfil, hvol] at h
    rcases b with _ | _
    · simp [processCoin, hid, hsc, hdev, hfil, hvol] at h
      obtain ⟨h1, h2⟩ := h
      subst h2
      simp
    have hg := verify_contract_blacklist_grows ctx ((ctx.dexscreener cid).body) bl
    rcases hvc : verify_contract ctx ((ctx.dexscreener cid).body) bl with ⟨r, bl2⟩
    rw [hvc] at hg
    rcases r with e | b
    · simp [processCoin, hid, hsc, hdev, hfil, hvol, hvc] at h
    rcases b with _ | _
    · simp [processCoin, hid, hsc, hdev, hfil, hvol, hvc] at h
      obtain ⟨h1, h2⟩ := h
      subst h2
      exact hg
    rcases hq : coin.symbol with _ | sym
    · simp [processCoin, hid, hsc, hdev, hfil, hvol, hvc, hq] at h
    · simp [processCoin, hid, hsc, hdev, hfil, hvol, hvc, hq] at h
      obtain ⟨h1, h2⟩ := h
      subst h2
      exact hg


theorem fetchDexAux_blacklist_grows (ctx : Env) (nowf : Nat → ℚ) :
    ∀ (cs : List Coin) (idx : Nat) (bl : Blacklist) (outs : List TokenOut)
      (bl2 : Blacklist), fetchDexAux ctx nowf idx bl cs = Except.ok (outs, bl2) →
      bl.memecoins <+: bl2.memecoins ∧ bl.developers <+: bl2.developers
  | [], idx, bl, outs, bl2, h => by
    simp [fetchDexAux] at h
    obtain ⟨h1, h2⟩ := h
    subst h2
    simp
  | coin :: rest, idx, bl, outs, bl2, h => by
    rcases hp : processCoin ctx (nowf idx) bl coin with e | ⟨o, bl1⟩
    · simp [fetchDexAux, hp] at h
    rcases hr : fetchDexAux ctx nowf (idx + 1) bl1 rest with e | ⟨outs1, bl3⟩
    · simp [fetchDexAux, hp, hr] at h
    have g1 := processCoin_blacklist_grows ctx (nowf idx) bl coin o bl1 hp
    have g2 := fetchDexAux_blacklist_grows ctx nowf rest (idx + 1) bl1 outs1 bl3 hr
    simp [fetchDexAux, hp, hr] at h
    obtain ⟨h1, h2⟩ := h
    subst h2
    exact ⟨g1.1.trans g2.1, g1.2.trans g2.2⟩

theorem fetchDexTrace_blacklist_grows (ctx : Env) (nowf : Nat → ℚ) :
    ∀ (cs : List Coin) (idx : Nat) (bl : Blacklist) (os : List (Option TokenOut))
      (bl2 : Blacklist), fetchDexTrace ctx nowf idx bl cs = Except.ok (os, bl2) →
      bl.memecoins <+: bl2.memecoins ∧ bl.developers <+: bl2.developers
  | [], idx, bl, os, bl2, h => by
    simp [fetchDexTrace] at h
    obtain ⟨h1, h2⟩ := h
    subst h2
    simp
  | coin :: rest, idx, bl, os, bl2, h => by
    rcases hp : processCoin ctx (nowf idx) bl coin with e | ⟨o, bl1⟩
    · simp [fetchDexTrace, hp] at h
    rcases hr : fetchDexTrace ctx nowf (idx + 1) bl1 rest with e | ⟨os1, bl3⟩
    · simp [fetchDexTrace, hp, hr] at h
    have g1 := processCoin_blacklist_grows ctx (nowf idx) bl coin o bl1 hp
    have g2 := fetchDexTrace_blacklist_grows ctx nowf rest (idx + 1) bl1 os1 bl3 hr
    simp [fetchDexTrace, hp, hr] at h
    obtain ⟨h1, h2⟩ := h
    subst h2
    exact ⟨g1.1.trans g2.1, g1.2.trans g2.2⟩

theorem filter_dexscreener_data_blacklisted (ctx : Env) (now : ℚ)
    (td : TokenData) (d : String) (bl : Blacklist) (hd : d ∈ bl.developers) :
    filter_dexscreener_data ctx now td d bl ≠ Except.ok true := by
  rcases hpa : td.pairAge with _ | _ | t
  · simp [filter_dexscreener_data, hpa]
  · simp [filter_dexscreener_data, hpa]
  · simp [filter_dexscreener_data, hpa, hd]

theorem processCoin_dev_blacklisted (ctx : Env) (now : ℚ) (bl : Blacklist)
    (coin : Coin) (d : String) (o : Option TokenOut) (bl1 : Blacklist)
    (hdev : coin.developer = some d) (hd : d ∈ bl.developers)
    (h : processCoin ctx now bl coin = Except.ok (o, bl1)) :
    o = none ∧ bl1 = bl := by
  rcases hid : coin.id with _ | cid
  · simp [processCoin, hid] at h
  by_cases hsc : (ctx.dexscreener cid).status_code = 200
  case neg =>
    simp [processCoin, hid, hsc] at h
    exact ⟨h.1.symm, h.2.symm⟩
  case pos =>
    rcases hfil : filter_dexscreener_data ctx now ((ctx.dexscreener cid).body) d bl
      with e | b
    · simp [processCoin, hid, hsc, hdev, hfil] at h
    rcases b with _ | _
    · simp [processCoin, hid, hsc, hdev, hfil] at h
      exact ⟨h.1.symm, h.2.symm⟩
    · exact absurd hfil (filter_dexscreener_data_blacklisted ctx now
        ((ctx.dexscreener cid).body) d bl hd)

theorem fetchDexTrace_dev_excluded (ctx : Env) (nowf : Nat → ℚ) :
    ∀ (cs : List Coin) (idx : Nat) (bl : Blacklist) (os : List (Option TokenOut))
      (bl2 : Blacklist) (d : String) (k : Nat) (c : Coin),
      d ∈ bl.developers →
      fetchDexTrace ctx nowf idx bl cs = Except.ok (os, bl2) →
      cs[k]? = some c → c.developer = some d →
      os[k]? = some none
  | [], idx, bl, os, bl2, d, k, c, hd, h, hk, hc => by
    simp at hk
  | coin :: rest, idx, bl, os, bl2, d, k, c, hd, h, hk, hc => by
    rcases hp : processCoin ctx (nowf idx) bl coin with e | ⟨o, bl1⟩
    · simp [fetchDexTrace, hp] at h
    rcases hr : fetchDexTrace ctx nowf (idx + 1) bl1 rest with e | ⟨os1, bl3⟩
    · simp [fetchDexTrace, hp, hr] at h
    simp [fetchDexTrace, hp, hr] at h
    obtain ⟨h1, h2⟩ := h
    subst h1
    cases k with
    | zero =>
      simp at hk
      subst hk
      have := processCoin_dev_blacklisted ctx (nowf idx) bl coin d o bl1 hc hd hp
      simp [this.1]
    | succ k =>
      simp at hk
      have hmem : d ∈ bl1.developers :=
        ((processCoin_blacklist_grows ctx (nowf idx) bl coin o bl1 hp).2).sublist.mem hd
      have := fetchDexTrace_dev_excluded ctx nowf rest (idx + 1) bl1 os1 bl3 d k c
        hmem hr hk hc
      simpa using this

theorem fetchDexTrace_length_eq (ctx : Env) (nowf : Nat → ℚ) :
    ∀ (cs : List Coin) (idx : Nat) (bl : Blacklist) (os : List (Option TokenOut))
      (bl2 : Blacklist), fetchDexTrace ctx nowf idx bl cs = Except.ok (os, bl2) →
      os.length = cs.length
  | [], idx, bl, os, bl2, h => by
    simp [fetchDexTrace] at h
    simp [h.1.symm]
  | coin :: rest, idx, bl, os, bl2, h => by
    rcases hp : processCoin ctx (nowf idx) bl coin with e | ⟨o, bl1⟩
    · simp [fetchDexTrace, hp] at h
    rcases hr : fetchDexTrace ctx nowf (idx + 1) bl1 rest with e | ⟨os1, bl3⟩
    · simp [fetchDexTrace, hp, hr] at h
    simp [fetchDexTrace, hp, hr] at h
    have := fetchDexTrace_length_eq ctx nowf rest (idx + 1) bl1 os1 bl3 hr
    simp [h.1.symm, this]

theorem fetchDexAux_eq_trace (ctx : Env) (nowf : Nat → ℚ) :
    ∀ (cs : List Coin) (idx : Nat) (bl : Blacklist),
      fetchDexAux ctx nowf idx bl cs =
        Except.map (fun p => (p.1.reduceOption, p.2)) (fetchDexTrace ctx nowf idx bl cs)
  | [], idx, bl => by
    simp [fetchDexAux, fetchDexTrace, Except.map]
  | coin :: rest, idx, bl => by
    rcases hp : processCoin ctx (nowf idx) bl coin with e | ⟨o, bl1⟩
    · simp [fetchDexAux, fetchDexTrace, hp, Except.map]
    rcases hr : fetchDexTrace ctx nowf (idx + 1) bl1 rest with e | ⟨os1, bl3⟩
    · have := fetchDexAux_eq_trace ctx nowf rest (idx + 1) bl1
      rw [hr] at this
      simp [fetchDexAux, fetchDexTrace, hp, hr, this, Except.map]
    · have := fetchDexAux_eq_trace ctx nowf rest (idx + 1) bl1
      rw [hr] at this
      simp [fetchDexAux, fetchDexTrace, hp, hr, this, Except.map]
      cases o <;> simp [List.reduceOption]


theorem analyze_pumpfun_data_sublist (bl : Blacklist) :
    ∀ (cs : List Coin) (res : List Coin),
      analyze_pumpfun_data bl cs = Except.ok res → res.Sublist cs
  | [], res, h => by
    simp [analyze_pumpfun_data] at h
    simp [h.symm]
  | coin :: rest, res, h => by
    by_cases hst : coin.status = some "migrated"
    case neg =>
      simp [analyze_pumpfun_data, hst] at h
      exact .cons coin (analyze_pumpfun_data_sublist bl rest res h)
    case pos =>
      rcases hsym : coin.symbol with _ | sym
      · simp [analyze_pumpfun_data, hst, hsym] at h
      by_cases hmem : sym ∈ bl.memecoins
      · simp [analyze_pumpfun_data, hst, hsym, hmem] at h
        exact .cons coin (analyze_pumpfun_data_sublist bl rest res h)
      · rcases hr : analyze_pumpfun_data bl rest with e | l
        · simp [analyze_pumpfun_data, hst, hsym, hmem, hr] at h
        · simp [analyze_pumpfun_data, hst, hsym, hmem, hr] at h
          rw [← h]
          exact .cons₂ coin (analyze_pumpfun_data_sublist bl rest l hr)

theorem analyze_gmgn_ai_sublist (ctx : Env) :
    ∀ (toks : List TokenOut) (res : List TokenOut),
      analyze_gmgn_ai ctx toks = Except.ok res → res.Sublist toks
  | [], res, h => by
    simp [analyze_gmgn_ai] at h
    simp [h.symm]
  | token :: rest, res, h => by
    rcases hid : token.data.id with _ | tid
    · simp [analyze_gmgn_ai, hid] at h
    by_cases hsc : (ctx.gmgn_ai tid).status_code = 200
    case neg =>
      simp [analyze_gmgn_ai, hid, hsc] at h
      exact .cons token (analyze_gmgn_ai_sublist ctx rest res h)
    case pos =>
      rcases hev : evaluate_holders ((ctx.gmgn_ai tid).body) with e | b
      · simp [analyze_gmgn_ai, hid, hsc, hev] at h
      rcases b with _ | _
      · simp [analyze_gmgn_ai, hid, hsc, hev] at h
        exact .cons token (analyze_gmgn_ai_sublist ctx rest res h)
      · rcases hr : analyze_gmgn_ai ctx rest with e | l
        · simp [analyze_gmgn_ai, hid, hsc, hev, hr] at h
        · simp [analyze_gmgn_ai, hid, hsc, hev, hr] at h
          rw [← h]
          exact .cons₂ token (analyze_gmgn_ai_sublist ctx rest l hr)



/-! ### Claim theorems -/

/-- C4: the Contract Integrity Verifier follows the decision table exactly
(for a record whose `symbol`, `contract` and `developer` fields are
present): a non-success response yields `false` with no blacklist change; a
success response with status ≠ "Good" yields `false` with no blacklist
change; a success response with status "Good" and a true `isBundledSupply`
yields `false` and appends exactly the symbol to `memecoins` and the
developer to `developers`; a success response with status "Good" and a
false (or absent) `isBundledSupply` yields `true` with no blacklist
change. -/
theorem C4_verify_contract_decision_table (ctx : Env) (td : TokenData)
    (bl : Blacklist) (sym addr dev : String)
    (hsym : td.symbol = some sym) (hcon : td.contract = some addr)
    (hdev : td.developer = some dev) :
    ((ctx.rugcheck addr).status_code ≠ 200 →
      verify_contract ctx td bl = (Except.ok false, bl)) ∧
    ((ctx.rugcheck addr).status_code = 200 →
      (ctx.rugcheck addr).body.status ≠ some "Good" →
      verify_contract ctx td bl = (Except.ok false, bl)) ∧
    ((ctx.rugcheck addr).status_code = 200 →
      (ctx.rugcheck addr).body.status = some "Good" →
      (ctx.rugcheck addr).body.isBundledSupply.getD false = true →
      verify_contract ctx td bl =
        (Except.ok false,
          ⟨bl.memecoins ++ [sym], bl.developers ++ [dev]⟩)) ∧
    ((ctx.rugcheck addr).status_code = 200 →
      (ctx.rugcheck addr).body.status = some "Good" →
      (ctx.rugcheck addr).body.isBundledSupply.getD false = false →
      verify_contract ctx td bl = (Except.ok true, bl)) := by
  refine ⟨?_, ?_, ?_, ?_⟩ <;> intros <;>
    simp_all [verify_contract, hsym, hcon, hdev]

/-- Witness for C4: in the concrete environment `envX`, RugCheck reports
status "Good" with bundled supply for contract "k1", and
`verify_contract` returns `false` and blacklists symbol "AAA" and
developer "d1". -/
theorem C4_witness :
    verify_contract envX tdA ⟨[], []⟩ =
      (Except.ok false, ⟨["AAA"], ["d1"]⟩) :=
  (C4_verify_contract_decision_table envX tdA ⟨[], []⟩ "AAA" "k1" "d1"
      rfl rfl rfl).2.2.1
    (by simp [envX]) (by simp [envX]) (by simp [envX])

/-- C5: for a record with its required fields present (`pairAge` parsed to
timestamp `t`, `oneHourTxns` and `fiveMinTxns` present), the Market Filter
passes iff the pair age `now − t` is at most `pair_age_hours` (hours, i.e.
`3600·pair_age_hours` seconds) and the transaction counts meet both minima
and the developer is not blacklisted. -/
theorem C5_market_filter_iff (ctx : Env) (now : ℚ) (td : TokenData)
    (dev : String) (bl : Blacklist) (t x y : ℚ)
    (hpa : td.pairAge = DateField.parsed t)
    (h1 : td.oneHourTxns = some x) (h5 : td.fiveMinTxns = some y) :
    filter_dexscreener_data ctx now td dev bl = Except.ok true ↔
      (now - t ≤ 3600 * ctx.filters.pair_age_hours ∧
       x ≥ ctx.filters.min_1h_txns ∧
       y ≥ ctx.filters.min_5m_txns ∧
       dev ∉ bl.developers) := by
  simp [filter_dexscreener_data, hpa, h1, h5]

/-- Witness for C5: the concrete record `tdA` against the concrete
configuration; all four conditions hold and the filter passes. -/
theorem C5_witness :
    filter_dexscreener_data envX 0 tdA "d1" ⟨[], []⟩ = Except.ok true ↔
      ((0 : ℚ) - 0 ≤ 3600 * envX.filters.pair_age_hours ∧
       (100 : ℚ) ≥ envX.filters.min_1h_txns ∧
       (100 : ℚ) ≥ envX.filters.min_5m_txns ∧
       "d1" ∉ (Blacklist.mk [] []).developers) :=
  C5_market_filter_iff envX 0 tdA "d1" ⟨[], []⟩ 0 100 100 rfl rfl rfl

/-- C6: the Holder Concentration Filter compares strictly against 0.2
(with exact rational arithmetic): a snapshot whose top-5 ratio is exactly
0.2 is rejected, and one whose ratio is strictly below 0.2 is accepted. -/
theorem C6_holder_ratio_strict (hd : HolderData) (ts : ℚ) (hs : List ℚ)
    (hts : hd.totalSupply = some ts) (hhs : hd.holders = some hs)
    (hne : ts ≠ 0) :
    ((hs.take 5).sum / ts = (0.2 : ℚ) → evaluate_holders hd = Except.ok false) ∧
    ((hs.take 5).sum / ts < (0.2 : ℚ) → evaluate_holders hd = Except.ok true) := by
  constructor <;> intro h <;> simp [evaluate_holders, hts, hhs, hne, h]

/-- Witness for C6: a top-5 holding of 200000 out of 1000000 (ratio exactly
0.2) is rejected, while 199999 out of 1000000 (ratio 0.199999) is
accepted. -/
theorem C6_witness :
    evaluate_holders ⟨some 1000000, some [200000]⟩ = Except.ok false ∧
    evaluate_holders ⟨some 1000000, some [199999]⟩ = Except.ok true :=
  ⟨(C6_holder_ratio_strict ⟨some 1000000, some [200000]⟩ 1000000 [200000]
      rfl rfl (by norm_num)).1 (by norm_num),
   (C6_holder_ratio_strict ⟨some 1000000, some [199999]⟩ 1000000 [199999]
      rfl rfl (by norm_num)).2 (by norm_num)⟩


/-- C9: the Social Signal Annotator returns "Good" when the returned score
strictly exceeds the threshold, "Medium" when it is less than or equal to
it, "Unknown" on a non-success response; and for every candidate that
reaches it (all earlier stages passed and the symbol field is present), it
never removes the candidate: the record proceeds, enriched with exactly the
label. -/
theorem C9_social_annotator :
    (∀ (ctx : Env) (sym : String),
      (ctx.tweetscout sym).status_code ≠ 200 →
      check_social_media ctx sym = "Unknown") ∧
    (∀ (ctx : Env) (sym : String) (s : ℚ),
      (ctx.tweetscout sym).status_code = 200 →
      (ctx.tweetscout sym).body.score = some s →
      s > ctx.filters.tweetscout_score_threshold →
      check_social_media ctx sym = "Good") ∧
    (∀ (ctx : Env) (sym : String) (s : ℚ),
      (ctx.tweetscout sym).status_code = 200 →
      (ctx.tweetscout sym).body.score = some s →
      s ≤ ctx.filters.tweetscout_score_threshold →
      check_social_media ctx sym = "Medium") ∧
    (∀ (ctx : Env) (now : ℚ) (bl : Blacklist) (coin : Coin)
      (cid dev sym : String) (bl1 : Blacklist),
      coin.id = some cid → (ctx.dexscreener cid).status_code = 200 →
      coin.developer = some dev → coin.symbol = some sym →
      filter_dexscreener_data ctx now ((ctx.dexscreener cid).body) dev bl =
        Except.ok true →
      verify_volume ctx ((ctx.dexscreener cid).body) = Except.ok true →
      verify_contract ctx ((ctx.dexscreener cid).body) bl =
        (Except.ok true, bl1) →
      processCoin ctx now bl coin =
        Except.ok
          (some ⟨(ctx.dexscreener cid).body, check_social_media ctx sym⟩, bl1)) := by
  refine ⟨?_, ?_, ?_, ?_⟩
  · intro ctx sym h
    simp [check_social_media, h]
  · intro ctx sym s h200 hs hgt
    simp [check_social_media, h200, hs, hgt]
  · intro ctx sym s h200 hs hle
    have hn : ¬ (s > ctx.filters.tweetscout_score_threshold) := not_lt.mpr hle
    simp [check_social_media, h200, hs, hn]
  · intro ctx now bl coin cid dev sym bl1 hid hsc hdev hsym hfil hvol hvc
    simp [processCoin, hid, hsc, hdev, hsym, hfil, hvol, hvc]

/-- Witness for C9: in `envX` the TweetScout score 500 exceeds the
threshold 450, so "AAA" is annotated "Good". -/
theorem C9_witness : check_social_media envX "AAA" = "Good" :=
  C9_social_annotator.2.1 envX "AAA" 500 (by simp [envX]) (by simp [envX])
    (by norm_num [envX, filtersX])

/-- C10: on a success sentiment response whose body lacks the `score`
field, the annotator treats the score as 0 and returns "Medium" whenever
the threshold is non-negative; and "Unknown" is returned only for
non-success responses. -/
theorem C10_missing_score_medium :
    (∀ (ctx : Env) (sym : String),
      (ctx.tweetscout sym).status_code = 200 →
      (ctx.tweetscout sym).body.score = none →
      0 ≤ ctx.filters.tweetscout_score_threshold →
      check_social_media ctx sym = "Medium") ∧
    (∀ (ctx : Env) (sym : String),
      check_social_media ctx sym = "Unknown" →
      (ctx.tweetscout sym).status_code ≠ 200) := by
  constructor
  · intro ctx sym h200 hnone hthr
    have hn : ¬ ((0 : ℚ) > ctx.filters.tweetscout_score_threshold) :=
      not_lt.mpr hthr
    simp [check_social_media, h200, hnone, hn]
  · intro ctx sym h hsc
    simp [check_social_media, hsc] at h
    split at h <;> simp_all

/-- Witness for C10: in `envNoScore` the sentiment response is a 200 with
no `score` field and the threshold is 450 ≥ 0, so the label is "Medium". -/
theorem C10_witness : check_social_media envNoScore "AAA" = "Medium" :=
  C10_missing_score_medium.1 envNoScore "AAA" (by simp [envNoScore, envX])
    (by simp [envNoScore, envX]) (by norm_num [envNoScore, envX, filtersX])

/-- C3 counterexample: the claim is false on the code in two ways.  A
snapshot with a nonzero `totalSupply` and an *empty* holder sequence is
*accepted* (ratio 0 passes the `< 0.2` test), not excluded; and a snapshot
with `totalSupply = 0` raises `ZeroDivisionError` to the caller (only
`KeyError` is caught) instead of returning `false`. -/
theorem C3_counterexample :
    evaluate_holders ⟨some 1, some []⟩ = Except.ok true ∧
    evaluate_holders ⟨some 0, some [1]⟩ =
      Except.error PyError.zeroDivisionError := by
  constructor
  · simp [evaluate_holders]
    norm_num
  · simp [evaluate_holders]

/-- C3 (amended): a holder snapshot with a missing `totalSupply` or a
missing `holders` key returns `false` (the `KeyError` is caught, the
candidate is excluded); an empty holder sequence with nonzero
`totalSupply` yields ratio 0 and returns `true` (accepted); and
`totalSupply = 0` with the `holders` key present raises
`ZeroDivisionError`, which surfaces to the caller. -/
theorem C3_holder_fail_modes (hd : HolderData) (ts : ℚ) (l : List ℚ) :
    (hd.totalSupply = none → evaluate_holders hd = Except.ok false) ∧
    (hd.holders = none → evaluate_holders hd = Except.ok false) ∧
    (hd.totalSupply = some ts → ts ≠ 0 → hd.holders = some [] →
      evaluate_holders hd = Except.ok true) ∧
    (hd.totalSupply = some 0 → hd.holders = some l →
      evaluate_holders hd = Except.error PyError.zeroDivisionError) := by
  refine ⟨?_, ?_, ?_, ?_⟩
  · intro h
    simp [evaluate_holders, h]
  · intro h
    rcases hts : hd.totalSupply with _ | ts1 <;> simp [evaluate_holders, hts, h]
  · intro h1 h2 h3
    simp [evaluate_holders, h1, h2, h3]
    norm_num
  · intro h1 h2
    simp [evaluate_holders, h1, h2]

/-- Witness for C3 (amended): a snapshot with no `totalSupply` key is
excluded (fails closed). -/
theorem C3_witness :
    evaluate_holders ⟨none, some [1]⟩ = Except.ok false :=
  (C3_holder_fail_modes ⟨none, some [1]⟩ 1 [1]).1 rfl


/-- C2 counterexample: a per-candidate fault can abort the remaining
batch.  The first coin's DexScreener record has an unparseable `pairAge`
string, so `strptime` raises `ValueError`, which the `except KeyError`
guard does not catch: the whole `fetch_dexscreener_tokens` loop aborts
with the exception and the second (healthy) candidate is never
processed — instead of only the faulty candidate being excluded. -/
theorem C2_counterexample :
    fetch_dexscreener_tokens envBad (fun _ => 0) ⟨[], []⟩ [coinBad, coinB] =
      Except.error PyError.valueError := by
  simp [fetch_dexscreener_tokens, fetchDexAux, processCoin,
    filter_dexscreener_data, envBad, envX, tdBad, coinBad]

/-- C2 (amended): the faults that the code guards against are swallowed
into "exclude this candidate": a non-200 DexScreener response skips the
coin with no exception and no state change; a missing `pairAge` key fails
the Market Filter; a missing `totalSupply` or `holders` key fails the
Holder Filter; a non-200 holder response skips the token.  But a
present-yet-unparseable `pairAge` raises `ValueError` (uncaught), which
aborts the remaining batch — so not every per-candidate fault is swallowed,
only those surfacing as `KeyError` inside the two guarded filters or as
non-success responses. -/
theorem C2_fault_policy :
    (∀ (ctx : Env) (now : ℚ) (bl : Blacklist) (coin : Coin) (cid : String),
      coin.id = some cid → (ctx.dexscreener cid).status_code ≠ 200 →
      processCoin ctx now bl coin = Except.ok (none, bl)) ∧
    (∀ (ctx : Env) (now : ℚ) (td : TokenData) (dev : String) (bl : Blacklist),
      td.pairAge = DateField.missing →
      filter_dexscreener_data ctx now td dev bl = Except.ok false) ∧
    (∀ (ctx : Env) (now : ℚ) (td : TokenData) (dev : String) (bl : Blacklist),
      td.pairAge = DateField.malformed →
      filter_dexscreener_data ctx now td dev bl =
        Except.error PyError.valueError) ∧
    (∀ (hd : HolderData), hd.totalSupply = none →
      evaluate_holders hd = Except.ok false) ∧
    (∀ (hd : HolderData), hd.holders = none →
      evaluate_holders hd = Except.ok false) ∧
    (∀ (ctx : Env) (token : TokenOut) (rest : List TokenOut) (tid : String),
      token.data.id = some tid → (ctx.gmgn_ai tid).status_code ≠ 200 →
      analyze_gmgn_ai ctx (token :: rest) = analyze_gmgn_ai ctx rest) := by
  refine ⟨?_, ?_, ?_, ?_, ?_, ?_⟩
  · intro ctx now bl coin cid hid hsc
    simp [processCoin, hid, hsc]
  · intro ctx now td dev bl h
    simp [filter_dexscreener_data, h]
  · intro ctx now td dev bl h
    simp [filter_dexscreener_data, h]
  · intro hd h
    simp [evaluate_holders, h]
  · intro hd h
    rcases hts : hd.totalSupply with _ | ts <;> simp [evaluate_holders, hts, h]
  · intro ctx token rest tid hid hsc
    simp [analyze_gmgn_ai, hid, hsc]

/-- Witness for C2 (amended): with every DexScreener request answering
503, a candidate is skipped with no exception and no blacklist change. -/
theorem C2_witness :
    processCoin envDown 0 ⟨[], []⟩ coinA = Except.ok (none, ⟨[], []⟩) :=
  C2_fault_policy.1 envDown 0 ⟨[], []⟩ coinA "1" rfl (by simp [envDown, envX])

/-- C1 counterexample: bundled-supply detection does *not* exclude a later
candidate that shares only the symbol.  In `envX`, candidate 0 (`coinA`,
symbol "AAA", developer "d1") is reported bundled by RugCheck — the first
conjunct shows its verifier call returns `false` and blacklists "AAA" and
"d1" — yet candidate 1 (`coinB`, the *same* symbol "AAA" but developer
"d2"), whose other fields pass every stage, survives to the output of the
Market/Contract stage (second conjunct): the `memecoins` blacklist is only
consulted by the candidate source at the start of a run, so the claimed
same-run symbol exclusion does not happen. -/
theorem C1_counterexample :
    verify_contract envX tdA ⟨[], []⟩ =
      (Except.ok false, ⟨["AAA"], ["d1"]⟩) ∧
    fetch_dexscreener_tokens envX (fun _ => 0) ⟨[], []⟩ [coinA, coinB] =
      Except.ok ([⟨tdB, "Good"⟩], ⟨["AAA"], ["d1"]⟩) := by
  constructor
  · simp [verify_contract, envX, tdA]
  · simp [fetch_dexscreener_tokens, fetchDexAux, processCoin,
      filter_dexscreener_data, verify_volume, verify_contract,
      check_social_media, envX, filtersX, tdA, tdB, coinA, coinB]
    norm_num
    simp +decide

/-- C1 (amended): if the Contract Integrity Verifier reports
`isBundledSupply=true` for candidate *i*, then every later candidate in the
same run that shares candidate *i*'s *developer address* is excluded at the
Market Filter stage.  (A later candidate sharing only the symbol is not
excluded within the same run: the symbol blacklist is consulted only by the
candidate source at the start of a run.)  First conjunct: the bundled-supply
report appends the developer (and symbol) to the blacklist.  Second
conjunct: once a developer is in the blacklist, every later candidate with
that developer is dropped (its trace entry is `none`), whatever its other
fields. -/
theorem C1_bundled_developer_excluded :
    (∀ (ctx : Env) (td : TokenData) (bl : Blacklist) (sym addr dev : String),
      td.symbol = some sym → td.contract = some addr →
      td.developer = some dev →
      (ctx.rugcheck addr).status_code = 200 →
      (ctx.rugcheck addr).body.status = some "Good" →
      (ctx.rugcheck addr).body.isBundledSupply.getD false = true →
      verify_contract ctx td bl =
        (Except.ok false,
          ⟨bl.memecoins ++ [sym], bl.developers ++ [dev]⟩)) ∧
    (∀ (ctx : Env) (nowf : Nat → ℚ) (idx : Nat) (bl : Blacklist)
      (cs : List Coin) (os : List (Option TokenOut)) (bl2 : Blacklist)
      (d : String) (k : Nat) (c : Coin),
      d ∈ bl.developers →
      fetchDexTrace ctx nowf idx bl cs = Except.ok (os, bl2) →
      cs[k]? = some c → c.developer = some d →
      os[k]? = some none) := by
  constructor
  · intro ctx td bl sym addr dev hsym hcon hdev h200 hgood hb
    simp [verify_contract, hsym, hcon, hdev, h200, hgood, hb]
  · intro ctx nowf idx bl cs os bl2 d k c hd h hk hc
    exact fetchDexTrace_dev_excluded ctx nowf cs idx bl os bl2 d k c hd h hk hc

/-- Witness for C1 (amended): the bundled report for `tdA` blacklists
developer "d1", and with "d1" blacklisted the later candidate `coinC`
(developer "d1") is dropped by the Market Filter. -/
theorem C1_witness :
    verify_contract envX tdA ⟨[], []⟩ =
      (Except.ok false, ⟨["AAA"], ["d1"]⟩) ∧
    (([none] : List (Option TokenOut))[0]? = some none) :=
  ⟨C1_bundled_developer_excluded.1 envX tdA ⟨[], []⟩ "AAA" "k1" "d1"
      rfl rfl rfl (by simp [envX]) (by simp [envX]) (by simp [envX]),
   C1_bundled_developer_excluded.2 envX (fun _ => 0) 0 ⟨["AAA"], ["d1"]⟩
      [coinC] [none] ⟨["AAA"], ["d1"]⟩ "d1" 0 coinC (by simp)
      (by simp [fetchDexTrace, processCoin, filter_dexscreener_data,
        envX, tdB, coinC])
      (by simp) rfl⟩


/-- C7: the blacklist grows monotonically within a run: whatever the run
does, the seed `memecoins` and `developers` lists are prefixes of the
final ones — entries are only ever appended, never removed. -/
theorem C7_blacklist_monotone (ctx : Env) (nowf : Nat → ℚ) (bl : Blacklist)
    (outs : List TokenOut) (bl2 : Blacklist)
    (h : run ctx nowf bl = Except.ok (outs, bl2)) :
    bl.memecoins <+: bl2.memecoins ∧ bl.developers <+: bl2.developers := by
  rcases hpf : fetch_pumpfun_coins ctx bl with e | coins
  · simp [run, hpf] at h
  rcases hfd : fetch_dexscreener_tokens ctx nowf bl coins with e | ⟨toks, bl1⟩
  · simp [run, hpf, hfd] at h
  rcases hg : analyze_gmgn_ai ctx toks with e | l
  · simp [run, hpf, hfd, hg] at h
  simp [run, hpf, hfd, hg] at h
  obtain ⟨h1, h2⟩ := h
  subst h2
  exact fetchDexAux_blacklist_grows ctx nowf coins 0 bl toks bl1 hfd

/-- Witness for C7: the concrete run in `envX` extends the empty seed
blacklist to `(["AAA"], ["d1"])`, of which the seed is a prefix. -/
theorem C7_witness :
    ([] : List String) <+: ["AAA"] ∧ ([] : List String) <+: ["d1"] := by
  have h1 : fetch_pumpfun_coins envX ⟨[], []⟩ = Except.ok [coinA, coinB] := by
    simp [fetch_pumpfun_coins, analyze_pumpfun_data, envX, coinA, coinB]
  have h2 : fetch_dexscreener_tokens envX (fun _ => 0) ⟨[], []⟩ [coinA, coinB] =
      Except.ok ([⟨tdB, "Good"⟩], ⟨["AAA"], ["d1"]⟩) := by
    simp [fetch_dexscreener_tokens, fetchDexAux, processCoin,
      filter_dexscreener_data, verify_volume, verify_contract,
      check_social_media, envX, filtersX, tdA, tdB, coinA, coinB]
    norm_num
    simp +decide
  have h3 : analyze_gmgn_ai envX [⟨tdB, "Good"⟩] = Except.ok [⟨tdB, "Good"⟩] := by
    simp [analyze_gmgn_ai, evaluate_holders, envX, tdB]
    norm_num
  exact C7_blacklist_monotone envX (fun _ => 0) ⟨[], []⟩ [⟨tdB, "Good"⟩]
    ⟨["AAA"], ["d1"]⟩ (by simp [run, h1, h2, h3])

/-- C8: candidate sets shrink monotonically through the pipeline, no stage
adds a candidate that was not in its input: the Candidate-Source output is
a sublist of the raw upstream list; the DexScreener stage derives at most
one output record per input coin, in input order (its per-coin trace has
exactly the input length, and the output is that trace with the dropped
coins removed), so its survivor count never exceeds its input count; and
the final Holder-Filter output is a sublist of the DexScreener stage
output. -/
theorem C8_pipeline_shrinks :
    (∀ (bl : Blacklist) (cs res : List Coin),
      analyze_pumpfun_data bl cs = Except.ok res → res.Sublist cs) ∧
    (∀ (ctx : Env) (nowf : Nat → ℚ) (idx : Nat) (bl : Blacklist)
      (cs : List Coin) (os : List (Option TokenOut)) (bl2 : Blacklist),
      fetchDexTrace ctx nowf idx bl cs = Except.ok (os, bl2) →
      os.length = cs.length ∧
        fetchDexAux ctx nowf idx bl cs = Except.ok (os.reduceOption, bl2)) ∧
    (∀ (ctx : Env) (nowf : Nat → ℚ) (idx : Nat) (bl : Blacklist)
      (cs : List Coin) (outs : List TokenOut) (bl2 : Blacklist),
      fetchDexAux ctx nowf idx bl cs = Except.ok (outs, bl2) →
      outs.length ≤ cs.length) ∧
    (∀ (ctx : Env) (toks res : List TokenOut),
      analyze_gmgn_ai ctx toks = Except.ok res → res.Sublist toks) := by
  refine ⟨?_, ?_, ?_, ?_⟩
  · intro bl cs res h
    exact analyze_pumpfun_data_sublist bl cs res h
  · intro ctx nowf idx bl cs os bl2 h
    refine ⟨fetchDexTrace_length_eq ctx nowf cs idx bl os bl2 h, ?_⟩
    rw [fetchDexAux_eq_trace ctx nowf cs idx bl, h]
    rfl
  · intro ctx nowf idx bl cs outs bl2 h
    rcases ht : fetchDexTrace ctx nowf idx bl cs with e | ⟨os, bl3⟩
    · rw [fetchDexAux_eq_trace ctx nowf cs idx bl, ht] at h
      simp [Except.map] at h
    · rw [fetchDexAux_eq_trace ctx nowf cs idx bl, ht] at h
      simp [Except.map] at h
      calc outs.length = os.reduceOption.length := by rw [← h.1]
        _ ≤ os.length := List.reduceOption_length_le os
        _ = cs.length := fetchDexTrace_length_eq ctx nowf cs idx bl os bl3 ht
  · intro ctx toks res h
    exact analyze_gmgn_ai_sublist ctx toks res h

/-- Witness for C8: a concrete candidate-source output `[coinA]` is a
sublist of the raw list `[coinNM, coinA]` (the coin without a "migrated"
status is dropped, nothing is added). -/
theorem C8_witness : List.Sublist [coinA] [coinNM, coinA] :=
  C8_pipeline_shrinks.1 ⟨[], []⟩ [coinNM, coinA] [coinA]
    (by simp [analyze_pumpfun_data, coinNM, coinA])

end TokenFilterBot
